import Mathlib

/-!
Verification development for the Instagram proxy repository
(rate-limiting middleware, response cache, and the three-strategy
acquisition orchestrator of `app/api/instagram-proxy/route.ts`).

The definitions below are a shallow embedding of the TypeScript source.
Network calls are modelled by an `Upstream` oracle giving each strategy's
fetch outcome; `Date.now()` is an explicit `now : Nat` parameter
(milliseconds); JavaScript falsiness of `||` defaults is modelled by the
`jsStrOr` / `jsIntOr` helpers; the in-memory `Map` caches are association
lists.  The `calls` field of a result records which upstream endpoints
were contacted, and `logs` records the `console.log` lines (the only
output gated by the `debug` flag).
-/

namespace InstagramProxy

/-- JavaScript `a || b` for an optional string `a` (absent or empty string
is falsy and falls through to the default). -/
def jsStrOr (o : Option String) (d : String) : String :=
  match o with
  | some s => if s = "" then d else s
  | none => d

/-- JavaScript `a || b` where `a` is a (present) string. -/
def jsStrOrS (s d : String) : String :=
  if s = "" then d else s

/-- JavaScript `a || b` for an optional number `a` (absent or zero is falsy
and falls through to the default). -/
def jsIntOr (o : Option Int) (d : Int) : Int :=
  match o with
  | some n => if n = 0 then d else n
  | none => d

/-- JSON values, as produced by `JSON.parse` (no `undefined`). -/
inductive Json where
  | null : Json
  | bool (b : Bool) : Json
  | num (n : Int) : Json
  | str (s : String) : Json
  | arr (elems : List Json) : Json
  | obj (fields : List (String × Json)) : Json

/-- JavaScript `typeof v === 'object' && v !== null` (arrays are objects). -/
def Json.isObjLike : Json → Bool
  | .obj _ => true
  | .arr _ => true
  | _ => false

/-- JavaScript `Array.isArray v`. -/
def Json.isArr : Json → Bool
  | .arr _ => true
  | _ => false

/-- JavaScript truthiness of a JSON value. -/
def Json.truthy : Json → Bool
  | .null => false
  | .bool b => b
  | .num n => n != 0
  | .str s => s ≠ ""
  | .arr _ => true
  | .obj _ => true

/-- First binding of a key in an association list of JSON fields. -/
def lookupField : List (String × Json) → String → Option Json
  | [], _ => none
  | (k, v) :: rest, key => if k = key then some v else lookupField rest key

/-- Property read `j[k]` on a JSON value; `none` models `undefined`
(also for reads on non-objects, which yield `undefined` in JavaScript
for the property names used by this code). -/
def Json.get : Json → String → Option Json
  | .obj fs, k => lookupField fs k
  | _, _ => none

/-- JavaScript `k in j` for the object case (`false` on non-objects and
on arrays for the non-index keys this code tests). -/
def Json.hasKey (j : Json) (k : String) : Bool :=
  (j.get k).isSome

/-- Read a field expected to be a string (the TypeScript interfaces type
these fields as `string`); a missing or non-string value reads as absent. -/
def Json.getStrField (j : Json) (k : String) : Option String :=
  match j.get k with
  | some (.str s) => some s
  | _ => none

/-- Read a field expected to be a number. -/
def Json.getIntField (j : Json) (k : String) : Option Int :=
  match j.get k with
  | some (.num n) => some n
  | _ => none

/-- Test that field `k` of `j` is the string literal `v` (the
`stat.name === "Followers"` style comparison). -/
def Json.strFieldIs (j : Json) (k v : String) : Bool :=
  match j.get k with
  | some (.str t) => t = v
  | _ => false

/-- The user-shape predicate of `findUserData`: a `username` string field
together with at least one of `full_name` / `biography` /
`profile_pic_url` as a string field. -/
def userShape (j : Json) : Bool :=
  (match j.get "username" with | some (.str _) => true | _ => false)
    && ((match j.get "full_name" with | some (.str _) => true | _ => false)
      || (match j.get "biography" with | some (.str _) => true | _ => false)
      || (match j.get "profile_pic_url" with | some (.str _) => true | _ => false))

mutual

/-- Model of `findUserData(obj, depth)` from the route: a depth-bounded
depth-first search for a nested object of user shape.  The entry guard
`!obj || typeof obj !== 'object' || depth > 5` returns `null`; otherwise
the object itself is tested, then every object-valued property (for an
array: every object element, matching `for..in` over indices) is searched
at `depth + 1`. -/
def findUserData (j : Json) (depth : Nat) : Option Json :=
  if !j.isObjLike || 5 < depth then none
  else if userShape j then some j
  else
    match j with
    | .obj fs => findInFields fs depth
    | .arr xs => findInElems xs depth
    | _ => none

/-- The `for (const key in obj)` loop of `findUserData` over an object's
fields: recurse into object-valued properties, returning the first hit. -/
def findInFields (fs : List (String × Json)) (depth : Nat) : Option Json :=
  match fs with
  | [] => none
  | (_, v) :: rest =>
    match (if v.isObjLike then findUserData v (depth + 1) else none) with
    | some r => some r
    | none => findInFields rest depth

/-- The `for..in` loop of `findUserData` over an array's elements. -/
def findInElems (xs : List Json) (depth : Nat) : Option Json :=
  match xs with
  | [] => none
  | v :: rest =>
    match (if v.isObjLike then findUserData v (depth + 1) else none) with
    | some r => some r
    | none => findInElems rest depth

end

mutual

/-- Fuel-instrumented variant of `findUserData`: each recursive descent
consumes one unit of fuel, and exhausted fuel returns `null`.  Used to
state that the recursion never descends more than six call levels. -/
def findUserDataF (fuel : Nat) (j : Json) (depth : Nat) : Option Json :=
  match fuel with
  | 0 => none
  | fuel' + 1 =>
    if !j.isObjLike || 5 < depth then none
    else if userShape j then some j
    else
      match j with
      | .obj fs => findInFieldsF fuel' fs depth
      | .arr xs => findInElemsF fuel' xs depth
      | _ => none

/-- Fuel-instrumented variant of `findInFields`. -/
def findInFieldsF (fuel : Nat) (fs : List (String × Json)) (depth : Nat) :
    Option Json :=
  match fs with
  | [] => none
  | (_, v) :: rest =>
    match (if v.isObjLike then findUserDataF fuel v (depth + 1) else none) with
    | some r => some r
    | none => findInFieldsF fuel rest depth

/-- Fuel-instrumented variant of `findInElems`. -/
def findInElemsF (fuel : Nat) (xs : List Json) (depth : Nat) : Option Json :=
  match xs with
  | [] => none
  | v :: rest =>
    match (if v.isObjLike then findUserDataF fuel v (depth + 1) else none) with
    | some r => some r
    | none => findInElemsF fuel rest depth

end

/-! Typed upstream data (the `InstagramRawUserData` family of interfaces)
and the normalized records returned to the caller. -/

/-- One element of `edge_owner_to_timeline_media.edges` (the fields read
from `edge.node` by `processUserData`; optional chains are `Option`s and
the nested singleton `count` / `text` wrappers are flattened to the read
value). -/
structure MediaNode where
  id : String
  shortcode : String
  thumbnail_src : Option String
  thumbnail_resources : Option (List (Option String))
  display_url : Option String
  is_video : Bool
  edge_media_to_caption : Option (List (Option String))
  taken_at_timestamp : Option Int
  edge_liked_by : Option Int
  edge_media_preview_like : Option Int
  edge_media_to_comment : Option Int
deriving DecidableEq

/-- The `edge_owner_to_timeline_media` object: optional `count` and
optional `edges`. -/
structure TimelineMedia where
  count : Option Int
  edges : Option (List MediaNode)
deriving DecidableEq

/-- The upstream user object (`InstagramRawUserData`): the outer `Option`
on the follower/following counters is the presence of the wrapper object,
the inner one the presence of its `count`. -/
structure RawUser where
  username : String
  full_name : Option String
  biography : Option String
  profile_pic_url_hd : Option String
  profile_pic_url : Option String
  edge_owner_to_timeline_media : Option TimelineMedia
  edge_followed_by : Option (Option Int)
  edge_follow : Option (Option Int)
deriving DecidableEq

/-- The normalized `InstagramPost` record. -/
structure InstagramPost where
  id : String
  shortcode : String
  thumbnailUrl : String
  displayUrl : String
  isVideo : Bool
  caption : String
  timestamp : Int
  likeCount : Int
  commentCount : Int
deriving DecidableEq

/-- The normalized `InstagramUserData` record (the success response body). -/
structure InstagramUserData where
  username : String
  fullName : String
  biography : String
  profilePicture : String
  postsCount : Int
  followersCount : Int
  followingCount : Int
  posts : List InstagramPost
deriving DecidableEq

/-- The loop body of `processUserData` building one post from one edge
node; `now` is `Date.now()` in milliseconds, so the timestamp fallback
`Math.floor(Date.now() / 1000)` is `now / 1000`. -/
def mkPost (now : Nat) (node : MediaNode) : InstagramPost :=
  { id := node.id
    shortcode := node.shortcode
    thumbnailUrl :=
      jsStrOr node.thumbnail_src
        (jsStrOr ((node.thumbnail_resources.bind List.head?).bind id) "")
    displayUrl := jsStrOr node.display_url ""
    isVideo := node.is_video
    caption := jsStrOr ((node.edge_media_to_caption.bind List.head?).bind id) ""
    timestamp := jsIntOr node.taken_at_timestamp ((now / 1000 : Nat) : Int)
    likeCount := jsIntOr node.edge_liked_by (jsIntOr node.edge_media_preview_like 0)
    commentCount := jsIntOr node.edge_media_to_comment 0 }

/-- The node list the `processUserData` loop ranges over (empty when the
timeline-media object or its `edges` array is absent). -/
def postNodes (u : RawUser) : List MediaNode :=
  match u.edge_owner_to_timeline_media with
  | some m => m.edges.getD []
  | none => []

/-- Model of `processUserData(userData)`: normalize an upstream user
object into an `InstagramUserData`, with the JavaScript `|| default`
fallbacks of the source. -/
def processUserData (now : Nat) (u : RawUser) : InstagramUserData :=
  { username := jsStrOrS u.username ""
    fullName := jsStrOr u.full_name ""
    biography := jsStrOr u.biography ""
    profilePicture := jsStrOr u.profile_pic_url_hd (jsStrOr u.profile_pic_url "")
    postsCount := jsIntOr (u.edge_owner_to_timeline_media.bind (·.count)) 0
    followersCount := jsIntOr (u.edge_followed_by.bind id) 0
    followingCount := jsIntOr (u.edge_follow.bind id) 0
    posts := (postNodes u).map (mkPost now) }

/-! The HTML-mining strategy (`extractInstagramData`).  An HTML document
is modelled by what the extraction code observes of it: for each of the
five Tier-1 regex patterns, in source order, whether it matched with a
non-empty captured group and what `JSON.parse` of that group yields; the
`og:` meta-tag contents; and the parse outcome of each JSON-LD script
block. -/

/-- Outcome of one Tier-1 pattern against the document: `none` when the
regex does not match (or captures nothing), `some (.error ())` when the
captured group is not valid JSON, `some (.ok j)` when it parses to `j`. -/
abbrev PatternOutcome := Option (Except Unit Json)

/-- The observable content of the fetched profile HTML document. -/
structure HtmlDoc where
  patternResults : List PatternOutcome
  ogTitle : Option String
  ogUrl : Option String
  ogImage : Option String
  ldJsonBlocks : List (Except Unit Json)

/-- Condition of the `entry_data` branch of the probe chain. -/
def condEntry (j : Json) : Bool :=
  match j.get "entry_data" with
  | some ed => ed.truthy && ed.isObjLike && ed.hasKey "ProfilePage"
  | none => false

/-- Condition of the `data.user` branch. -/
def condUser (j : Json) : Bool :=
  match j.get "user" with
  | some u => u.truthy && u.isObjLike
  | none => false

/-- Condition of the `data.data` branch. -/
def condData (j : Json) : Bool :=
  match j.get "data" with
  | some d => d.truthy && d.isObjLike && d.hasKey "user"
  | none => false

/-- Condition of the `data.graphql` branch. -/
def condGraphql (j : Json) : Bool :=
  match j.get "graphql" with
  | some g => g.truthy && g.isObjLike && g.hasKey "user"
  | none => false

/-- Condition of the `data.items` branch. -/
def condItems (j : Json) : Bool :=
  match j.get "items" with
  | some it => it.truthy && it.isArr
  | none => false

/-- The nested extraction of
`entry_data.ProfilePage[0].graphql.user` with the source's guards at each
step (array with an object first element, object `graphql`, object
`user`); any failed guard falls out of the branch without trying the
remaining `else if` alternatives. -/
def entryDataUser (ed : Json) : Option Json :=
  match ed.get "ProfilePage" with
  | some (.arr (p0 :: _)) =>
    if p0.isObjLike then
      match p0.get "graphql" with
      | some g =>
        if g.isObjLike then
          match g.get "user" with
          | some u => if u.isObjLike then some u else none
          | none => none
        else none
      | none => none
    else none
  | _ => none

/-- Result of probing one parsed Tier-1 JSON value: `brk v` models
`capturedData = v; break`, `next` models falling through to the next
pattern of the loop. -/
inductive ProbeOut where
  | brk (v : Json) : ProbeOut
  | next : ProbeOut

/-- The `if / else if` probe chain applied to one successfully parsed
Tier-1 JSON value.  Note that the `data.data` and `data.graphql` branches
break with whatever `user` value is present, without checking that it is
an object. -/
def probe (j : Json) : ProbeOut :=
  if !j.isObjLike then .next
  else if condEntry j then
    match (j.get "entry_data").bind entryDataUser with
    | some u => .brk u
    | none => .next
  else if condUser j then .brk ((j.get "user").getD .null)
  else if condData j then
    .brk (((j.get "data").bind (fun d => d.get "user")).getD .null)
  else if condGraphql j then
    .brk (((j.get "graphql").bind (fun g => g.get "user")).getD .null)
  else if condItems j then
    match findUserData j 0 with
    | some u => .brk u
    | none => .next
  else .next

/-- The Tier-1 pattern loop: patterns are tried in order; a non-matching
pattern or a JSON-parse failure continues with the next pattern; a probe
`break` ends the loop, and the captured value is kept only if truthy
(the `if (capturedData)` test after the loop). -/
def tier1 : List PatternOutcome → Option Json
  | [] => none
  | none :: rest => tier1 rest
  | some (.error _) :: rest => tier1 rest
  | some (.ok j) :: rest =>
    match probe j with
    | .brk v => if v.truthy then some v else none
    | .next => tier1 rest

/-- Model of the unchecked TypeScript cast of a captured JSON value to
the `InstagramMediaNode` interface: each declared field is read at its
declared type, a value not conforming to the interface reading as
absent. -/
def castMediaNode (j : Json) : MediaNode :=
  { id := (j.getStrField "id").getD ""
    shortcode := (j.getStrField "shortcode").getD ""
    thumbnail_src := j.getStrField "thumbnail_src"
    thumbnail_resources :=
      match j.get "thumbnail_resources" with
      | some (.arr xs) => some (xs.map (fun x => x.getStrField "src"))
      | _ => none
    display_url := j.getStrField "display_url"
    is_video := (match j.get "is_video" with | some v => v.truthy | none => false)
    edge_media_to_caption :=
      match (j.get "edge_media_to_caption").bind (fun c => c.get "edges") with
      | some (.arr es) =>
        some (es.map (fun e => (e.get "node").bind (fun n => n.getStrField "text")))
      | _ => none
    taken_at_timestamp := j.getIntField "taken_at_timestamp"
    edge_liked_by := (j.get "edge_liked_by").bind (fun c => c.getIntField "count")
    edge_media_preview_like :=
      (j.get "edge_media_preview_like").bind (fun c => c.getIntField "count")
    edge_media_to_comment :=
      (j.get "edge_media_to_comment").bind (fun c => c.getIntField "count") }

/-- Model of the unchecked TypeScript cast of a captured JSON value to
the `InstagramRawUserData` interface. -/
def castToRawUser (j : Json) : RawUser :=
  { username := (j.getStrField "username").getD ""
    full_name := j.getStrField "full_name"
    biography := j.getStrField "biography"
    profile_pic_url_hd := j.getStrField "profile_pic_url_hd"
    profile_pic_url := j.getStrField "profile_pic_url"
    edge_owner_to_timeline_media :=
      (j.get "edge_owner_to_timeline_media").map (fun m =>
        { count := m.getIntField "count"
          edges :=
            match m.get "edges" with
            | some (.arr es) =>
              some (es.map (fun e => castMediaNode ((e.get "node").getD .null)))
            | _ => none })
    edge_followed_by :=
      (j.get "edge_followed_by").map (fun c => c.getIntField "count")
    edge_follow := (j.get "edge_follow").map (fun c => c.getIntField "count") }

/-- The `json.mainEntityOfPage?.["@type"] === "ProfilePage"` test. -/
def isProfilePageLd (j : Json) : Bool :=
  match (j.get "mainEntityOfPage").bind (fun m => m.get "@type") with
  | some (.str t) => t = "ProfilePage"
  | _ => false

/-- First JSON-LD block whose `mainEntityOfPage.@type` equals
"ProfilePage"; parse failures are ignored. -/
def findLd : List (Except Unit Json) → Option Json
  | [] => none
  | .error _ :: rest => findLd rest
  | .ok j :: rest => if isProfilePageLd j then some j else findLd rest

/-- The `interactionStatistic?.find(stat => stat.name === name)
?.userInteractionCount` read of the JSON-LD fallback. -/
def interactionCount (ld : Json) (name : String) : Option Int :=
  match ld.get "interactionStatistic" with
  | some (.arr stats) =>
    (stats.find? (fun s => s.strFieldIs "name" name)).bind
      (fun s => s.getIntField "userInteractionCount")
  | _ => none

/-- The Tier-2 metadata fallback: username from `og:title` (text before
the bullet separator) or the last non-empty path segment of `og:url`;
picture from `og:image`; then the JSON-LD ProfilePage block if one
parses, else the minimal record. -/
def tier2 (doc : HtmlDoc) : InstagramUserData :=
  let username :=
    jsStrOr (doc.ogTitle.map (fun s => (s.splitOn " • ").headD ""))
      (jsStrOr (doc.ogUrl.bind
        (fun s => ((s.splitOn "/").filter (fun p => p ≠ "")).getLast?)) "")
  let profilePicture := jsStrOr doc.ogImage ""
  match findLd doc.ldJsonBlocks with
  | some ld =>
    { username := jsStrOr (ld.getStrField "name") (jsStrOrS username "")
      fullName := jsStrOr (ld.getStrField "name") ""
      biography := jsStrOr (ld.getStrField "description") ""
      profilePicture := jsStrOr (ld.getStrField "image") (jsStrOrS profilePicture "")
      postsCount := jsIntOr (interactionCount ld "Posts") 0
      followersCount := jsIntOr (interactionCount ld "Followers") 0
      followingCount := jsIntOr (interactionCount ld "Following") 0
      posts := [] }
  | none =>
    { username := jsStrOrS username ""
      fullName := ""
      biography := ""
      profilePicture := jsStrOrS profilePicture ""
      postsCount := 0
      followersCount := 0
      followingCount := 0
      posts := [] }

/-- Model of `extractInstagramData(html, isDebug)`: Tier-1 script mining
first (a truthy captured value is normalized through `processUserData`),
then the Tier-2 metadata fallback.  The `isDebug` argument of the source
only gates `console.log` calls and does not influence the value. -/
def extractInstagramData (doc : HtmlDoc) (now : Nat) : InstagramUserData :=
  match tier1 doc.patternResults with
  | some captured => processUserData now (castToRawUser captured)
  | none => tier2 doc

/-! The response cache (`const cache = new Map<string, CacheData>()`),
modelled as an association list of key, record and insertion time. -/

/-- Cache duration: 10 minutes in milliseconds. -/
def CACHE_DURATION : Nat := 10 * 60 * 1000

/-- The in-memory cache contents. -/
abbrev Cache := List (String × InstagramUserData × Nat)

/-- Lookup (`cache.get`): first entry with the key. -/
def cacheGet : Cache → String → Option (InstagramUserData × Nat)
  | [], _ => none
  | (k, d, ts) :: rest, key => if k = key then some (d, ts) else cacheGet rest key

/-- Model of `cache.delete(key)`. -/
def cacheDelete (c : Cache) (key : String) : Cache :=
  c.filter (fun e => e.1 ≠ key)

/-- Model of `cache.set(key, { data, timestamp })` (replacing semantics
of a `Map`). -/
def cacheSet (c : Cache) (key : String) (d : InstagramUserData) (ts : Nat) : Cache :=
  (key, d, ts) :: cacheDelete c key

/-- Model of `getCachedData(key)`: a fresh entry (age strictly below the
TTL) is returned unchanged; a stale entry is deleted and the lookup
misses; the returned cache is the possibly-updated map. -/
def getCachedData (c : Cache) (key : String) (now : Nat) :
    Option InstagramUserData × Cache :=
  match cacheGet c key with
  | some (d, ts) =>
    if now - ts < CACHE_DURATION then (some d, c) else (none, cacheDelete c key)
  | none => (none, c)

/-! The orchestrator `GET` of the strategy-chain route.  The three
network reads are an oracle `Upstream`: strategies A and B yield either
an error (network failure or non-2xx status, with the error message)
or a 2xx body, of which only the presence of the nested user object
matters; strategy C yields an error or the HTML document. -/

/-- Outcome of one upstream fetch. -/
inductive FetchResult (α : Type) where
  | ok (data : α) : FetchResult α
  | err (msg : String) : FetchResult α

/-- The fixed upstream responses seen by one acquisition. -/
structure Upstream where
  gql : FetchResult (Option RawUser)
  alt : FetchResult (Option RawUser)
  html : FetchResult HtmlDoc

/-- Which upstream endpoints a request contacted, in order. -/
inductive Strategy where
  | gqlApi : Strategy
  | altApi : Strategy
  | htmlPage : Strategy
deriving DecidableEq

/-- The JSON body of a response of the route. -/
inductive RespBody where
  | json200 (d : InstagramUserData) : RespBody
  | missing400 : RespBody
  | allFailed500 (username : String) (errors : List String) : RespBody
deriving DecidableEq

/-- Result of one `GET` invocation: HTTP status, body, the cache after
the request, the upstream calls made, and the `console.log` lines. -/
structure GetResult where
  status : Nat
  body : RespBody
  cache : Cache
  calls : List Strategy
  logs : List String
deriving DecidableEq

/-- A log line emitted only in debug mode. -/
def dbgLog (dbg : Bool) (s : String) : List String :=
  if dbg then [s] else []

/-- Method 3 (HTML scraping): on a fetched document, extraction succeeds
when the extracted username is truthy (non-empty); otherwise the thrown
"Could not extract user data from HTML" is caught and recorded like a
fetch error.  Reaching this point with no success returns the aggregated
500 failure with the ordered error list. -/
def method3 (username : String) (dbg : Bool) (c : Cache) (now : Nat)
    (html : FetchResult HtmlDoc) (errors : List String)
    (calls : List Strategy) (logs : List String) : GetResult :=
  let logs := logs ++ dbgLog dbg ("Attempting HTML scraping for " ++ username)
  let calls := calls ++ [Strategy.htmlPage]
  match html with
  | .ok doc =>
    let jsonData := extractInstagramData doc now
    if jsonData.username ≠ "" then
      { status := 200
        body := .json200 jsonData
        cache := cacheSet c ("instagram-" ++ username) jsonData now
        calls := calls
        logs := logs }
    else
      let msg := "HTML scraping error: Could not extract user data from HTML"
      { status := 500
        body := .allFailed500 username (errors ++ [msg])
        cache := c
        calls := calls
        logs := logs ++ dbgLog dbg msg }
  | .err m =>
    let msg := "HTML scraping error: " ++ m
    { status := 500
      body := .allFailed500 username (errors ++ [msg])
      cache := c
      calls := calls
      logs := logs ++ dbgLog dbg msg }

/-- Method 2 (alternative API): succeeds only when the 2xx body carries
`graphql.user`; a fetch error records its message; a 2xx body without a
user object records nothing and falls through to method 3. -/
def method2 (username : String) (dbg : Bool) (c : Cache) (now : Nat)
    (alt : FetchResult (Option RawUser)) (html : FetchResult HtmlDoc)
    (errors : List String) (calls : List Strategy) (logs : List String) :
    GetResult :=
  let logs := logs ++ dbgLog dbg ("Attempting Instagram alternative API for " ++ username)
  let calls := calls ++ [Strategy.altApi]
  match alt with
  | .ok (some user) =>
    let d := processUserData now user
    { status := 200
      body := .json200 d
      cache := cacheSet c ("instagram-" ++ username) d now
      calls := calls
      logs := logs }
  | .ok none => method3 username dbg c now html errors calls logs
  | .err m =>
    let msg := "Alternative API error: " ++ m
    method3 username dbg c now html (errors ++ [msg]) calls (logs ++ dbgLog dbg msg)

/-- Method 1 (GraphQL API): succeeds only when the 2xx body carries
`data.user`; a fetch error records its message; a 2xx body without a
user object records nothing and falls through to method 2. -/
def method1 (username : String) (dbg : Bool) (c : Cache) (now : Nat)
    (up : Upstream) (errors : List String) (calls : List Strategy)
    (logs : List String) : GetResult :=
  let logs := logs ++ dbgLog dbg ("Attempting Instagram GraphQL API for " ++ username)
  let calls := calls ++ [Strategy.gqlApi]
  match up.gql with
  | .ok (some user) =>
    let d := processUserData now user
    { status := 200
      body := .json200 d
      cache := cacheSet c ("instagram-" ++ username) d now
      calls := calls
      logs := logs }
  | .ok none => method2 username dbg c now up.alt up.html errors calls logs
  | .err m =>
    let msg := "GraphQL API error: " ++ m
    method2 username dbg c now up.alt up.html (errors ++ [msg]) calls
      (logs ++ dbgLog dbg msg)

/-- Model of the route handler `GET(request)` of the strategy-chain
route: `username?` is the raw `searchParams.get('username')` (`none` for
a missing parameter, not trimmed by this route), `debug?` the raw debug
parameter.  A falsy username answers 400 at once; then cache lookup; then
the strategy chain. -/
def GET (username? : Option String) (debug? : Option String) (c : Cache)
    (now : Nat) (up : Upstream) : GetResult :=
  let isDebugMode := debug? == some "true"
  match username? with
  | none =>
    { status := 400, body := .missing400, cache := c, calls := [], logs := [] }
  | some username =>
    if username = "" then
      { status := 400, body := .missing400, cache := c, calls := [], logs := [] }
    else
      match getCachedData c ("instagram-" ++ username) now with
      | (some d, c1) =>
        { status := 200
          body := .json200 d
          cache := c1
          calls := []
          logs := ["Serving cached Instagram data for " ++ username] }
      | (none, c1) => method1 username isDebugMode c1 now up [] [] []

end InstagramProxy

namespace RateLimiter

open InstagramProxy

/-- Per-15-minute request limit of the middleware. -/
def REQUESTS_PER_IP_LIMIT : Nat := 20

/-- Cooldown period: 5 minutes in milliseconds. -/
def COOLDOWN_PERIOD : Nat := 1000 * 60 * 5

/-- Window of the counter entry: the LRU cache default TTL, 15 minutes in
milliseconds. -/
def WINDOW : Nat := 1000 * 60 * 15

/-- The middleware state for one client IP: the `requests-ip` counter
entry with its expiry instant, and the `cooldown-ip` flag with its expiry
instant (absent entries model both a never-written and an evicted key).
Capacity-based eviction across clients is outside this per-client
model. -/
structure RateState where
  counter : Option (Nat × Nat)
  cooldown : Option Nat
deriving DecidableEq

/-- Whether the cooldown flag reads as present (`cache.get` returns the
value while `now` has not passed the entry's expiry). -/
def cooldownActive (s : RateState) (t : Nat) : Bool :=
  match s.cooldown with
  | some e => t ≤ e
  | none => false

/-- The counter read `(cache.get(requestKey) as number) || 0`. -/
def counterValue (s : RateState) (t : Nat) : Nat :=
  match s.counter with
  | some (c, e) => if t ≤ e then c else 0
  | none => 0

/-- The middleware response: HTTP status, the `error` body field of a
429, and the `X-RateLimit-Remaining` header of an accepted request. -/
structure RLResponse where
  status : Nat
  error : Option String
  remaining : Option Nat
deriving DecidableEq

/-- Model of one request through the rate-limiting middleware at instant
`t`: an unexpired cooldown rejects without touching the counter; else the
counter is incremented (with a refreshed window TTL) and, when its
pre-increment value had already reached the limit, the cooldown flag is
set and the request rejected; otherwise it is accepted with the remaining
quota attached. -/
def middleware (s : RateState) (t : Nat) : RateState × RLResponse :=
  if cooldownActive s t then
    (s, { status := 429, error := some "Too many requests", remaining := none })
  else
    let current := counterValue s t
    let s1 : RateState := { s with counter := some (current + 1, t + WINDOW) }
    if REQUESTS_PER_IP_LIMIT ≤ current then
      ({ s1 with cooldown := some (t + COOLDOWN_PERIOD) },
        { status := 429, error := some "Rate limit exceeded", remaining := none })
    else
      (s1,
        { status := 200
          error := none
          remaining := some (REQUESTS_PER_IP_LIMIT - current - 1) })

/-- The state after `n` requests from a fresh client, all at instant `t`. -/
def runN : Nat → Nat → RateState
  | 0, _ => { counter := none, cooldown := none }
  | n + 1, t => (middleware (runN n t) t).1

end RateLimiter

namespace InstagramProxy

/-! Concrete fixtures used by the witness and counterexample theorems. -/

/-- The projection of a request outcome that the caller can observe:
status, body, resulting cache and upstream calls (everything except the
server-side console log). -/
def observable (r : GetResult) : Nat × RespBody × Cache × List Strategy :=
  (r.status, r.body, r.cache, r.calls)

/-- Spec predicate: a handle with no leading at-sign character. -/
def noLeadingAt (s : String) : Bool :=
  match s.data with
  | c :: _ => c ≠ '@'
  | [] => true

/-- Upstream where strategy A gets a 2xx body without a user object and
strategies B and C fail hard. -/
def upSilentA : Upstream :=
  { gql := .ok none, alt := .err "boom", html := .err "down" }

/-- Upstream where every strategy fails hard. -/
def upAllErr : Upstream :=
  { gql := .err "a", alt := .err "b", html := .err "c" }

/-- An upstream user object whose handle carries a leading at-sign. -/
def rawAtUser : RawUser :=
  { username := "@jane"
    full_name := some "Jane"
    biography := none
    profile_pic_url_hd := none
    profile_pic_url := none
    edge_owner_to_timeline_media := none
    edge_followed_by := none
    edge_follow := none }

/-- An upstream user object with a 42-post timeline. -/
def rawUser42 : RawUser :=
  { username := "jane"
    full_name := some "Jane"
    biography := none
    profile_pic_url_hd := none
    profile_pic_url := none
    edge_owner_to_timeline_media := some { count := some 42, edges := some [] }
    edge_followed_by := none
    edge_follow := none }

/-- A timeline node that omits `taken_at_timestamp`. -/
def nodeNoTimestamp : MediaNode :=
  { id := "1"
    shortcode := "s"
    thumbnail_src := none
    thumbnail_resources := none
    display_url := none
    is_video := false
    edge_media_to_caption := none
    taken_at_timestamp := none
    edge_liked_by := none
    edge_media_preview_like := none
    edge_media_to_comment := none }

/-- An upstream user object with a single post that omits its
timestamp. -/
def rawUserNoTs : RawUser :=
  { username := "bob"
    full_name := none
    biography := some "bio"
    profile_pic_url_hd := none
    profile_pic_url := none
    edge_owner_to_timeline_media := some { count := some 1, edges := some [nodeNoTimestamp] }
    edge_followed_by := none
    edge_follow := none }

/-- A cached record fixture. -/
def cachedRecord : InstagramUserData :=
  { username := "x"
    fullName := ""
    biography := ""
    profilePicture := ""
    postsCount := 0
    followersCount := 0
    followingCount := 0
    posts := [] }

/-! Helper lemmas. -/

/-- Deleting a key makes its lookup miss. -/
theorem cacheGet_cacheDelete (c : Cache) (key : String) :
    cacheGet (cacheDelete c key) key = none := by
  induction c with
  | nil => rfl
  | cons e rest ih =>
    obtain ⟨k, d, ts⟩ := e
    by_cases h : k = key
    · simpa [cacheDelete, List.filter_cons, h] using ih
    · simpa [cacheDelete, List.filter_cons, h, cacheGet] using ih

/-- Method 3 always contacts the HTML endpoint, exactly once. -/
theorem method3_calls (username : String) (dbg : Bool) (c : Cache) (now : Nat)
    (html : FetchResult HtmlDoc) (errors : List String)
    (calls : List Strategy) (logs : List String) :
    (method3 username dbg c now html errors calls logs).calls =
      calls ++ [Strategy.htmlPage] := by
  cases html with
  | ok doc =>
    by_cases h : (extractInstagramData doc now).username = "" <;> simp [method3, h]
  | err m => simp [method3]

/-- Method 2 always contacts the alternative endpoint first. -/
theorem method2_calls (username : String) (dbg : Bool) (c : Cache) (now : Nat)
    (alt : FetchResult (Option RawUser)) (html : FetchResult HtmlDoc)
    (errors : List String) (calls : List Strategy) (logs : List String) :
    ∃ r, (method2 username dbg c now alt html errors calls logs).calls =
      calls ++ Strategy.altApi :: r := by
  cases alt with
  | ok o =>
    cases o with
    | some user => exact ⟨[], by simp [method2]⟩
    | none => exact ⟨[Strategy.htmlPage], by simp [method2, method3_calls]⟩
  | err m => exact ⟨[Strategy.htmlPage], by simp [method2, method3_calls]⟩

/-- Method 1 always contacts the GraphQL endpoint first. -/
theorem method1_calls (username : String) (dbg : Bool) (c : Cache) (now : Nat)
    (up : Upstream) (errors : List String) (calls : List Strategy)
    (logs : List String) :
    ∃ r, (method1 username dbg c now up errors calls logs).calls =
      calls ++ Strategy.gqlApi :: r := by
  cases hg : up.gql with
  | ok o =>
    cases o with
    | some user => exact ⟨[], by simp [method1, hg]⟩
    | none =>
      obtain ⟨r, hr⟩ := method2_calls username dbg c now up.alt up.html errors
        (calls ++ [Strategy.gqlApi]) (logs ++ dbgLog dbg ("Attempting Instagram GraphQL API for " ++ username))
      exact ⟨Strategy.altApi :: r, by simp [method1, hg, hr]⟩
  | err m =>
    obtain ⟨r, hr⟩ := method2_calls username dbg c now up.alt up.html
      (errors ++ ["GraphQL API error: " ++ m]) (calls ++ [Strategy.gqlApi])
      ((logs ++ dbgLog dbg ("Attempting Instagram GraphQL API for " ++ username)) ++
        dbgLog dbg ("GraphQL API error: " ++ m))
    refine ⟨Strategy.altApi :: r, ?_⟩
    simp only [method1, hg]
    rw [hr]
    simp

/-- The debug flag affects only the logs of method 3. -/
theorem method3_observable (username : String) (d1 d2 : Bool) (c : Cache)
    (now : Nat) (html : FetchResult HtmlDoc) (errors : List String)
    (calls : List Strategy) (logs1 logs2 : List String) :
    observable (method3 username d1 c now html errors calls logs1) =
      observable (method3 username d2 c now html errors calls logs2) := by
  cases html with
  | ok doc =>
    by_cases h : (extractInstagramData doc now).username = "" <;>
      simp [method3, h, observable]
  | err m => simp [method3, observable]

/-- The debug flag affects only the logs of method 2. -/
theorem method2_observable (username : String) (d1 d2 : Bool) (c : Cache)
    (now : Nat) (alt : FetchResult (Option RawUser)) (html : FetchResult HtmlDoc)
    (errors : List String) (calls : List Strategy) (logs1 logs2 : List String) :
    observable (method2 username d1 c now alt html errors calls logs1) =
      observable (method2 username d2 c now alt html errors calls logs2) := by
  cases alt with
  | ok o =>
    cases o with
    | some user => simp [method2, observable]
    | none =>
      exact method3_observable username d1 d2 c now html errors
        (calls ++ [Strategy.altApi])
        (logs1 ++ dbgLog d1 ("Attempting Instagram alternative API for " ++ username))
        (logs2 ++ dbgLog d2 ("Attempting Instagram alternative API for " ++ username))
  | err m =>
    exact method3_observable username d1 d2 c now html
      (errors ++ ["Alternative API error: " ++ m]) (calls ++ [Strategy.altApi])
      ((logs1 ++ dbgLog d1 ("Attempting Instagram alternative API for " ++ username)) ++
        dbgLog d1 ("Alternative API error: " ++ m))
      ((logs2 ++ dbgLog d2 ("Attempting Instagram alternative API for " ++ username)) ++
        dbgLog d2 ("Alternative API error: " ++ m))

/-- The debug flag affects only the logs of method 1. -/
theorem method1_observable (username : String) (d1 d2 : Bool) (c : Cache)
    (now : Nat) (up : Upstream) (errors : List String) (calls : List Strategy)
    (logs1 logs2 : List String) :
    observable (method1 username d1 c now up errors calls logs1) =
      observable (method1 username d2 c now up errors calls logs2) := by
  cases hg : up.gql with
  | ok o =>
    cases o with
    | some user => simp [method1, hg, observable]
    | none =>
      simp only [method1, hg]
      exact method2_observable username d1 d2 c now up.alt up.html errors
        (calls ++ [Strategy.gqlApi])
        (logs1 ++ dbgLog d1 ("Attempting Instagram GraphQL API for " ++ username))
        (logs2 ++ dbgLog d2 ("Attempting Instagram GraphQL API for " ++ username))
  | err m =>
    simp only [method1, hg]
    exact method2_observable username d1 d2 c now up.alt up.html
      (errors ++ ["GraphQL API error: " ++ m]) (calls ++ [Strategy.gqlApi])
      ((logs1 ++ dbgLog d1 ("Attempting Instagram GraphQL API for " ++ username)) ++
        dbgLog d1 ("GraphQL API error: " ++ m))
      ((logs2 ++ dbgLog d2 ("Attempting Instagram GraphQL API for " ++ username)) ++
        dbgLog d2 ("GraphQL API error: " ++ m))

/-- A Tier-1 pattern whose captured group fails to parse contributes
nothing: the loop result is that of the same pattern list with the entry
not matching at all. -/
theorem tier1_parse_error_skipped (pre post : List PatternOutcome) (e : Unit) :
    tier1 (pre ++ some (.error e) :: post) = tier1 (pre ++ none :: post) := by
  induction pre with
  | nil => rfl
  | cons p pre ih =>
    cases p with
    | none => simpa [tier1] using ih
    | some r =>
      cases r with
      | error u => simpa [tier1] using ih
      | ok j =>
        simp only [List.cons_append, tier1]
        cases probe j with
        | brk v => rfl
        | next => exact ih

/-- A call of the nested search below the depth cutoff returns null
immediately. -/
theorem findUserData_depth_gt_five (j : Json) (d : Nat) (h : 5 < d) :
    findUserData j d = none := by
  unfold findUserData
  simp [h]

/-- Field descent agrees with its fuel-instrumented variant when the
remaining fuel covers the remaining admissible depth. -/
theorem findInFieldsF_agrees (fuel : Nat)
    (ihAll : ∀ (j : Json) (d : Nat), 6 ≤ d + fuel →
      findUserDataF fuel j d = findUserData j d)
    (fs : List (String × Json)) (d : Nat) (h : 6 ≤ d + 1 + fuel) :
    findInFieldsF fuel fs d = findInFields fs d := by
  induction fs with
  | nil => rfl
  | cons p rest ih =>
    obtain ⟨k, v⟩ := p
    have hv : (if v.isObjLike then findUserDataF fuel v (d + 1) else none) =
        (if v.isObjLike then findUserData v (d + 1) else none) := by
      by_cases hb : v.isObjLike
      · simp only [hb, if_true]
        exact ihAll v (d + 1) (by omega)
      · simp [hb]
    simp only [findInFieldsF, findInFields, hv, ih]

/-- Element descent agrees with its fuel-instrumented variant when the
remaining fuel covers the remaining admissible depth. -/
theorem findInElemsF_agrees (fuel : Nat)
    (ihAll : ∀ (j : Json) (d : Nat), 6 ≤ d + fuel →
      findUserDataF fuel j d = findUserData j d)
    (xs : List Json) (d : Nat) (h : 6 ≤ d + 1 + fuel) :
    findInElemsF fuel xs d = findInElems xs d := by
  induction xs with
  | nil => rfl
  | cons v rest ih =>
    have hv : (if v.isObjLike then findUserDataF fuel v (d + 1) else none) =
        (if v.isObjLike then findUserData v (d + 1) else none) := by
      by_cases hb : v.isObjLike
      · simp only [hb, if_true]
        exact ihAll v (d + 1) (by omega)
      · simp [hb]
    simp only [findInElemsF, findInElems, hv, ih]

/-- Six units of fuel, less the starting depth, always suffice: the
recursion of `findUserData` never descends further than the depth cutoff
allows, on any input whatsoever. -/
theorem findUserDataF_agrees :
    ∀ (fuel : Nat) (j : Json) (d : Nat), 6 ≤ d + fuel →
      findUserDataF fuel j d = findUserData j d := by
  intro fuel
  induction fuel with
  | zero =>
    intro j d h
    rw [findUserData_depth_gt_five j d (by omega)]
    simp [findUserDataF]
  | succ fuel ih =>
    intro j d h
    by_cases hd : 5 < d
    · rw [findUserData_depth_gt_five j d hd]
      unfold findUserDataF
      simp [hd]
    · unfold findUserDataF findUserData
      cases j with
      | obj fs =>
        simp only [Json.isObjLike]
        rw [findInFieldsF_agrees fuel ih fs d (by omega)]
      | arr xs =>
        simp only [Json.isObjLike]
        rw [findInElemsF_agrees fuel ih xs d (by omega)]
      | null => rfl
      | bool b => rfl
      | num n => rfl
      | str s => rfl

end InstagramProxy

namespace RateLimiter

/-- Under the limit, `n` requests at one instant from a fresh client
leave no cooldown and a counter reading `n`. -/
theorem runN_spec (t : Nat) :
    ∀ n, n ≤ REQUESTS_PER_IP_LIMIT →
      (runN n t).cooldown = none ∧ counterValue (runN n t) t = n := by
  intro n
  induction n with
  | zero => intro _; exact ⟨rfl, rfl⟩
  | succ n ih =>
    intro h
    obtain ⟨hc, hv⟩ := ih (Nat.le_of_succ_le h)
    have hca : cooldownActive (runN n t) t = false := by
      simp [cooldownActive, hc]
    have hlim : ¬ REQUESTS_PER_IP_LIMIT ≤ counterValue (runN n t) t := by
      rw [hv]
      simp only [REQUESTS_PER_IP_LIMIT] at h ⊢
      omega
    unfold runN middleware
    rw [hca]
    simp only [Bool.false_eq_true, if_false, hlim]
    constructor
    · simpa using hc
    · simp only [counterValue, Nat.le_add_right, if_true]
      exact congrArg (· + 1) hv

/-! Claim theorems. -/

/-- C1: within one 15-minute window the 20th request from a client is
accepted; a request whose pre-increment counter has already reached the
limit of 20 (the 21st) is rejected with 429 and sets a fresh 5-minute
cooldown flag; and while a cooldown flag is unexpired, every request from
that client is rejected with 429 with the state — in particular the
counter — left untouched. -/
theorem c1_rate_limit_window_and_cooldown (t : Nat) :
    (middleware (runN 19 t) t).2.status = 200 ∧
    (middleware (runN 20 t) t).2.status = 429 ∧
    (middleware (runN 20 t) t).1.cooldown = some (t + COOLDOWN_PERIOD) ∧
    (∀ (s : RateState) (u : Nat), cooldownActive s u = false →
      REQUESTS_PER_IP_LIMIT ≤ counterValue s u →
      (middleware s u).2.status = 429 ∧
      (middleware s u).1.cooldown = some (u + COOLDOWN_PERIOD)) ∧
    (∀ (s : RateState) (u : Nat), cooldownActive s u = true →
      middleware s u =
        (s, { status := 429, error := some "Too many requests", remaining := none })) := by
  obtain ⟨hc19, hv19⟩ := runN_spec t 19 (by decide)
  obtain ⟨hc20, hv20⟩ := runN_spec t 20 (by decide)
  have hca19 : cooldownActive (runN 19 t) t = false := by simp [cooldownActive, hc19]
  have hca20 : cooldownActive (runN 20 t) t = false := by simp [cooldownActive, hc20]
  refine ⟨?_, ?_, ?_, ?_, ?_⟩
  · simp [middleware, hca19, hv19, REQUESTS_PER_IP_LIMIT]
  · simp [middleware, hca20, hv20, REQUESTS_PER_IP_LIMIT]
  · simp [middleware, hca20, hv20, REQUESTS_PER_IP_LIMIT]
  · intro s u hca hlim
    constructor <;> simp [middleware, hca, hlim]
  · intro s u h
    simp [middleware, h]

/-- Witness for C1 at concrete inputs: a fresh client's 20th request at
instant 0 is accepted, and a client in cooldown at instant 3 with expiry
5 is rejected with an unchanged state. -/
theorem c1_witness :
    (middleware (runN 19 0) 0).2.status = 200 ∧
    middleware { counter := some (7, 100), cooldown := some 5 } 3 =
      ({ counter := some (7, 100), cooldown := some 5 },
        { status := 429, error := some "Too many requests", remaining := none }) :=
  ⟨(c1_rate_limit_window_and_cooldown 0).1,
    (c1_rate_limit_window_and_cooldown 0).2.2.2.2
      { counter := some (7, 100), cooldown := some 5 } 3 (by decide)⟩

end RateLimiter

namespace InstagramProxy

/-- C2 counterexample: with strategy A answering 2xx without a user
object and strategies B and C failing hard, all three strategies are
attempted and none succeeds, yet the aggregated 500 body carries only 2
error entries — strategy A's failure is silently omitted. -/
theorem c2_counterexample :
    (GET (some "alice") none [] 0 upSilentA).calls =
      [Strategy.gqlApi, Strategy.altApi, Strategy.htmlPage] ∧
    (GET (some "alice") none [] 0 upSilentA).status = 500 ∧
    (GET (some "alice") none [] 0 upSilentA).body =
      RespBody.allFailed500 "alice"
        ["Alternative API error: boom", "HTML scraping error: down"] :=
  ⟨rfl, rfl, rfl⟩

/-- C2 (amended): when every strategy fails by raising an error (network
failure or non-2xx), the aggregated 500 body carries exactly 3 error
entries, in attempt order, with the requested username echoed; a strategy
that returns a 2xx body without a user object contributes no entry, so
fewer entries are possible in that case. -/
theorem c2_hard_failures_exactly_three_ordered_errors
    (username : String) (debug? : Option String) (c : Cache) (now : Nat)
    (m1 m2 m3 : String) (hu : username ≠ "")
    (hc : cacheGet c ("instagram-" ++ username) = none) :
    (GET (some username) debug? c now
        { gql := .err m1, alt := .err m2, html := .err m3 }).status = 500 ∧
    (GET (some username) debug? c now
        { gql := .err m1, alt := .err m2, html := .err m3 }).body =
      RespBody.allFailed500 username
        ["GraphQL API error: " ++ m1, "Alternative API error: " ++ m2,
          "HTML scraping error: " ++ m3] := by
  have hget : getCachedData c ("instagram-" ++ username) now = (none, c) := by
    simp [getCachedData, hc]
  constructor <;> simp [GET, hu, hget, method1, method2, method3]

/-- Witness for C2 (amended) at concrete inputs. -/
theorem c2_witness :
    (GET (some "alice") none [] 0 upAllErr).status = 500 ∧
    (GET (some "alice") none [] 0 upAllErr).body =
      RespBody.allFailed500 "alice"
        ["GraphQL API error: " ++ "a", "Alternative API error: " ++ "b",
          "HTML scraping error: " ++ "c"] :=
  c2_hard_failures_exactly_three_ordered_errors "alice" none [] 0 "a" "b" "c"
    (by decide) rfl

/-- C3: the orchestrator runs the strategies in order A, B, C and
short-circuits on the first success: when strategy A yields a user object
it is the only endpoint contacted and the response body is its processed
record; with a timeline-media count of 42 the record's postsCount is 42;
when A fails and B succeeds, exactly A then B were contacted; and each
strategy failure's message is appended to the ordered error list before
the next strategy runs — a failing strategy A continues as method 2 with
its message appended to the accumulated list, a failing strategy B
continues as method 3 likewise, and a failing strategy C appends its
message to the list the aggregated 500 body reports. -/
theorem c3_strategy_order_and_short_circuit
    (username : String) (debug? : Option String) (c : Cache) (now : Nat)
    (user : RawUser) (media : TimelineMedia) (hu : username ≠ "")
    (hc : cacheGet c ("instagram-" ++ username) = none)
    (hm : user.edge_owner_to_timeline_media = some media)
    (hcount : media.count = some 42) :
    (∀ up : Upstream, up.gql = .ok (some user) →
      (GET (some username) debug? c now up).status = 200 ∧
      (GET (some username) debug? c now up).calls = [Strategy.gqlApi] ∧
      (GET (some username) debug? c now up).body =
        RespBody.json200 (processUserData now user)) ∧
    (processUserData now user).postsCount = 42 ∧
    (∀ (up : Upstream) (m : String), up.gql = .err m → up.alt = .ok (some user) →
      (GET (some username) debug? c now up).calls =
        [Strategy.gqlApi, Strategy.altApi] ∧
      (GET (some username) debug? c now up).body =
        RespBody.json200 (processUserData now user)) ∧
    (∀ (dbg : Bool) (c1 : Cache) (now1 : Nat) (alt : FetchResult (Option RawUser))
        (html : FetchResult HtmlDoc) (m : String) (errors : List String)
        (calls : List Strategy) (logs : List String),
      method1 username dbg c1 now1 { gql := .err m, alt := alt, html := html }
          errors calls logs =
        method2 username dbg c1 now1 alt html
          (errors ++ ["GraphQL API error: " ++ m]) (calls ++ [Strategy.gqlApi])
          ((logs ++ dbgLog dbg ("Attempting Instagram GraphQL API for " ++ username)) ++
            dbgLog dbg ("GraphQL API error: " ++ m))) ∧
    (∀ (dbg : Bool) (c1 : Cache) (now1 : Nat) (html : FetchResult HtmlDoc)
        (m : String) (errors : List String) (calls : List Strategy)
        (logs : List String),
      method2 username dbg c1 now1 (.err m) html errors calls logs =
        method3 username dbg c1 now1 html
          (errors ++ ["Alternative API error: " ++ m]) (calls ++ [Strategy.altApi])
          ((logs ++ dbgLog dbg ("Attempting Instagram alternative API for " ++ username)) ++
            dbgLog dbg ("Alternative API error: " ++ m))) ∧
    (∀ (dbg : Bool) (c1 : Cache) (now1 : Nat) (m : String) (errors : List String)
        (calls : List Strategy) (logs : List String),
      (method3 username dbg c1 now1 (.err m) errors calls logs).body =
        RespBody.allFailed500 username (errors ++ ["HTML scraping error: " ++ m])) := by
  have hget : getCachedData c ("instagram-" ++ username) now = (none, c) := by
    simp [getCachedData, hc]
  refine ⟨?_, ?_, ?_, ?_, ?_, ?_⟩
  · intro up hg
    refine ⟨?_, ?_, ?_⟩ <;> simp [GET, hu, hget, method1, hg]
  · simp [processUserData, hm, hcount, jsIntOr]
  · intro up m hg ha
    constructor <;> simp [GET, hu, hget, method1, method2, hg, ha]
  · intro dbg c1 now1 alt html m errors calls logs
    rfl
  · intro dbg c1 now1 html m errors calls logs
    rfl
  · intro dbg c1 now1 m errors calls logs
    rfl

/-- Witness for C3 at concrete inputs: strategy A succeeds with a
42-post timeline, so only the GraphQL endpoint is contacted and the
response carries postsCount 42; and a failing strategy C appends its
message after the accumulated A and B messages in the aggregated body. -/
theorem c3_witness :
    (GET (some "jane") none [] 0
        { gql := .ok (some rawUser42), alt := .err "b", html := .err "c" }).calls =
      [Strategy.gqlApi] ∧
    (processUserData 0 rawUser42).postsCount = 42 ∧
    (method3 "jane" false [] 0 (.err "c")
        ["GraphQL API error: a", "Alternative API error: b"]
        [Strategy.gqlApi, Strategy.altApi] []).body =
      RespBody.allFailed500 "jane"
        (["GraphQL API error: a", "Alternative API error: b"] ++
          ["HTML scraping error: " ++ "c"]) := by
  obtain ⟨h1, h2, h3, h4, h5, h6⟩ := c3_strategy_order_and_short_circuit "jane" none
    [] 0 rawUser42 { count := some 42, edges := some [] } (by decide) rfl rfl rfl
  exact ⟨(h1 _ rfl).2.1, h2,
    h6 false [] 0 "c" ["GraphQL API error: a", "Alternative API error: b"]
      [Strategy.gqlApi, Strategy.altApi] []⟩

/-- C4: a cache entry younger than the 10-minute TTL is returned with no
upstream call and the cache untouched; an entry whose age has reached the
TTL is never returned — the request behaves exactly as if the entry had
been deleted beforehand, and the strategy chain runs, starting with the
GraphQL endpoint. -/
theorem c4_cache_ttl_semantics
    (username : String) (debug? : Option String) (c : Cache) (now ts : Nat)
    (d : InstagramUserData) (up : Upstream) (hu : username ≠ "")
    (hc : cacheGet c ("instagram-" ++ username) = some (d, ts)) :
    (now - ts < CACHE_DURATION →
      GET (some username) debug? c now up =
        { status := 200, body := RespBody.json200 d, cache := c, calls := [],
          logs := ["Serving cached Instagram data for " ++ username] }) ∧
    (CACHE_DURATION ≤ now - ts →
      GET (some username) debug? c now up =
        GET (some username) debug? (cacheDelete c ("instagram-" ++ username)) now up ∧
      (GET (some username) debug? c now up).calls.head? = some Strategy.gqlApi) := by
  constructor
  · intro hfresh
    have hget : getCachedData c ("instagram-" ++ username) now = (some d, c) := by
      simp [getCachedData, hc, hfresh]
    simp [GET, hu, hget]
  · intro hstale
    have hnl : ¬ now - ts < CACHE_DURATION := Nat.not_lt.mpr hstale
    have hget : getCachedData c ("instagram-" ++ username) now =
        (none, cacheDelete c ("instagram-" ++ username)) := by
      simp [getCachedData, hc, hnl]
    have hget2 : getCachedData (cacheDelete c ("instagram-" ++ username))
        ("instagram-" ++ username) now =
        (none, cacheDelete c ("instagram-" ++ username)) := by
      simp [getCachedData, cacheGet_cacheDelete]
    constructor
    · simp [GET, hu, hget, hget2]
    · obtain ⟨r, hr⟩ := method1_calls username (debug? == some "true")
        (cacheDelete c ("instagram-" ++ username)) now up [] [] []
      simp [GET, hu, hget, hr]

/-- Witness for C4 at concrete inputs: a fresh entry is served with no
calls; a stale entry leads to a strategy-chain run starting at the
GraphQL endpoint. -/
theorem c4_witness :
    GET (some "x") none [("instagram-x", cachedRecord, 0)] 100 upAllErr =
      { status := 200, body := RespBody.json200 cachedRecord,
        cache := [("instagram-x", cachedRecord, 0)], calls := [],
        logs := ["Serving cached Instagram data for x"] } ∧
    (GET (some "x") none [("instagram-x", cachedRecord, 0)] 600000 upAllErr).calls.head? =
      some Strategy.gqlApi := by
  have w1 := (c4_cache_ttl_semantics "x" none [("instagram-x", cachedRecord, 0)]
    100 0 cachedRecord upAllErr (by decide) rfl).1 (by decide)
  have w2 := ((c4_cache_ttl_semantics "x" none [("instagram-x", cachedRecord, 0)]
    600000 0 cachedRecord upAllErr (by decide) rfl).2 (by decide)).2
  exact ⟨w1, w2⟩

/-- C5 counterexample: a whitespace-only username is not rejected by the
strategy-chain route — the request proceeds past validation, contacts all
three upstream endpoints and answers 500, not 400. -/
theorem c5_counterexample :
    (GET (some " ") none [] 0 upAllErr).status = 500 ∧
    (GET (some " ") none [] 0 upAllErr).calls =
      [Strategy.gqlApi, Strategy.altApi, Strategy.htmlPage] :=
  ⟨rfl, rfl⟩

/-- C5 (amended): a missing or empty username parameter is rejected with
400 immediately — before any cache access and before any upstream call;
whitespace-only usernames are not rejected by this route (no trimming is
performed here; only the single-endpoint route variant trims). -/
theorem c5_missing_or_empty_username_400
    (username? : Option String) (debug? : Option String) (c : Cache) (now : Nat)
    (up : Upstream) (h : username? = none ∨ username? = some "") :
    GET username? debug? c now up =
      { status := 400, body := RespBody.missing400, cache := c, calls := [],
        logs := [] } := by
  rcases h with h | h <;> subst h <;> simp [GET]

/-- Witness for C5 (amended) at concrete inputs. -/
theorem c5_witness :
    GET none none [] 0 upAllErr =
      { status := 400, body := RespBody.missing400, cache := [], calls := [],
        logs := [] } ∧
    GET (some "") none [] 0 upAllErr =
      { status := 400, body := RespBody.missing400, cache := [], calls := [],
        logs := [] } :=
  ⟨c5_missing_or_empty_username_400 none none [] 0 upAllErr (Or.inl rfl),
    c5_missing_or_empty_username_400 (some "") none [] 0 upAllErr (Or.inr rfl)⟩

/-- C6 counterexample: an upstream user object whose handle is "@jane"
is passed through by the strategy chain with its leading at-sign intact:
the produced ProfileRecord's username is not the normalized no-leading-at
handle. -/
theorem c6_counterexample :
    (GET (some "jane") none [] 0
        { gql := .ok (some rawAtUser), alt := .err "b", html := .err "c" }).body =
      RespBody.json200 (processUserData 0 rawAtUser) ∧
    (processUserData 0 rawAtUser).username = "@jane" ∧
    noLeadingAt (processUserData 0 rawAtUser).username = false :=
  ⟨rfl, rfl, by decide⟩

/-- C6 (amended): the strategy-chain normalization passes the upstream
username through verbatim (defaulting to the empty string): no at-sign
stripping is performed by processUserData. -/
theorem c6_username_passthrough (now : Nat) (u : RawUser) :
    (processUserData now u).username = u.username := by
  by_cases h : u.username = "" <;> simp [processUserData, jsStrOrS, h]

/-- C7: a JSON-parse failure on an individual Tier-1 regex match is
swallowed inside the pattern loop — for any document, any parse-failing
pattern occurrence behaves exactly as if the pattern had not matched, so
the HTML strategy is a total function that proceeds to the next pattern
or to the Tier-2 metadata fallback. -/
theorem c7_tier1_parse_failure_swallowed
    (doc : HtmlDoc) (pre post : List PatternOutcome) (e : Unit) (now : Nat) :
    extractInstagramData { doc with patternResults := pre ++ some (.error e) :: post } now =
      extractInstagramData { doc with patternResults := pre ++ none :: post } now := by
  have ht2 : tier2 { doc with patternResults := pre ++ some (.error e) :: post } =
      tier2 { doc with patternResults := pre ++ none :: post } := rfl
  cases h : tier1 (pre ++ none :: post) with
  | some captured =>
    simp [extractInstagramData, tier1_parse_error_skipped, h]
  | none =>
    simp [extractInstagramData, tier1_parse_error_skipped, h, ht2]

/-- C8: the nested search is depth-bounded and terminates in a bounded
number of recursion levels on every input: a call at depth greater than
5 returns null without descending, and six units of recursion fuel
(less the starting depth) always reproduce the unbounded-recursion
result, whatever the input object. -/
theorem c8_find_user_data_depth_bounded (j : Json) (d : Nat) :
    (5 < d → findUserData j d = none) ∧
    (∀ fuel : Nat, 6 ≤ d + fuel → findUserDataF fuel j d = findUserData j d) :=
  ⟨findUserData_depth_gt_five j d, fun fuel h => findUserDataF_agrees fuel j d h⟩

/-- Witness for C8 at concrete inputs. -/
theorem c8_witness :
    findUserData (Json.obj [("a", Json.null)]) 6 = none ∧
    findUserDataF 6 (Json.obj [("a", Json.null)]) 0 =
      findUserData (Json.obj [("a", Json.null)]) 0 :=
  ⟨(c8_find_user_data_depth_bounded (Json.obj [("a", Json.null)]) 6).1 (by decide),
    (c8_find_user_data_depth_bounded (Json.obj [("a", Json.null)]) 0).2 6 (by decide)⟩

/-- C9: every post produced by processUserData comes from a timeline
node and carries a total integer timestamp: when the node omits
taken_at_timestamp the timestamp is the current time in epoch seconds,
and a present non-zero timestamp is kept. -/
theorem c9_post_timestamp_never_null (now : Nat) (u : RawUser) (p : InstagramPost)
    (hp : p ∈ (processUserData now u).posts) :
    ∃ node ∈ postNodes u,
      p = mkPost now node ∧
      (node.taken_at_timestamp = none → p.timestamp = ((now / 1000 : Nat) : Int)) ∧
      (∀ t : Int, node.taken_at_timestamp = some t → t ≠ 0 → p.timestamp = t) := by
  have hposts : (processUserData now u).posts = (postNodes u).map (mkPost now) := rfl
  rw [hposts] at hp
  obtain ⟨node, hn, hmk⟩ := List.mem_map.mp hp
  refine ⟨node, hn, hmk.symm, ?_, ?_⟩
  · intro h
    rw [← hmk]
    simp [mkPost, h, jsIntOr]
  · intro t ht hne
    rw [← hmk]
    simp [mkPost, ht, jsIntOr, hne]

/-- Witness for C9 at a concrete input: a single post whose node omits
the timestamp, at Date.now() = 2000 ms, gets timestamp 2 seconds. -/
theorem c9_witness :
    ∃ node ∈ postNodes rawUserNoTs,
      mkPost 2000 nodeNoTimestamp = mkPost 2000 node ∧
      (node.taken_at_timestamp = none →
        (mkPost 2000 nodeNoTimestamp).timestamp = ((2000 / 1000 : Nat) : Int)) ∧
      (∀ t : Int, node.taken_at_timestamp = some t → t ≠ 0 →
        (mkPost 2000 nodeNoTimestamp).timestamp = t) :=
  c9_post_timestamp_never_null 2000 rawUserNoTs (mkPost 2000 nodeNoTimestamp)
    (by simp [processUserData, postNodes, rawUserNoTs])

/-- C10: with the username, cache and upstream responses fixed, the
response — status, body, resulting cache and upstream calls — is
identical whatever the debug parameter; debug influences only the
server-side console log. -/
theorem c10_debug_flag_response_invariant
    (username? : Option String) (d1 d2 : Option String) (c : Cache) (now : Nat)
    (up : Upstream) :
    observable (GET username? d1 c now up) = observable (GET username? d2 c now up) := by
  cases username? with
  | none => rfl
  | some username =>
    by_cases hu : username = ""
    · simp [GET, hu]
    · rcases hgc : getCachedData c ("instagram-" ++ username) now with ⟨_ | d, c1⟩
      · simp only [GET, hu, hgc, if_neg hu]
        exact method1_observable username (d1 == some "true") (d2 == some "true")
          c1 now up [] [] [] []
      · simp [GET, hu, hgc, observable]

end InstagramProxy
